import Mathlib

/-!
A shallow embedding of the attendance-session and token lifecycle of the
attendance-tracking application (source: `attendance/models.py` and
`attendance/views.py`).

Modelling conventions:
* timestamps (`created_at`, `ended_at`, `expires_at`, "now") are integers
  (seconds); calendar dates are integers (day numbers);
* decimal coordinates are rationals;
* the database is a record of lists of rows, in insertion order; Django
  querysets are modelled as list traversals (`find?`, `filter`, stable
  maximum selection);
* the external geodesic-distance routine (`geopy.distance.geodesic(..).meters`)
  is a parameter `dist : ℚ → ℚ → ℚ → ℚ → ℚ` of every operation that needs it,
  since the library is an external collaborator; the truthiness test and the
  threshold comparison around it are taken from the source;
* image/QR-code fields and HTTP plumbing are omitted: they carry no logic
  relevant to the lifecycle.
-/

namespace AttendanceApp

/-- A course row (`attendance/models.py`, class `Course`): identity, active
flag, owning lecturer, and the enrolled-student roster (ids), flattening the
`CourseEnrollment` join table. -/
structure Course where
  id : Nat
  is_active : Bool
  lecturer : Nat
  students : List Nat
deriving Repr, DecidableEq

/-- An attendance-session row (`attendance/models.py`, class `Attendance`). -/
structure Attendance where
  id : Nat
  course : Nat
  date : Int
  present_students : List Nat
  lecturer_latitude : Option ℚ
  lecturer_longitude : Option ℚ
  is_active : Bool
  ended_at : Option Int
  created_at : Int
deriving Repr, DecidableEq

/-- A check-in token row (`attendance/models.py`, class `AttendanceToken`). -/
structure AttendanceToken where
  id : Nat
  course : Nat
  token : String
  generated_at : Option Int
  expires_at : Option Int
  is_active : Bool
deriving Repr, DecidableEq

/-- `Attendance.is_open` (models.py lines 112-113):
`self.is_active and (self.ended_at is None or self.ended_at > timezone.now())`. -/
def Attendance.is_open (a : Attendance) (now : Int) : Bool :=
  a.is_active && (match a.ended_at with
    | none => true
    | some e => decide (e > now))

/-- `Attendance.is_session_valid` (models.py lines 115-123): active AND
created less than 4 hours ago (`timezone.now() < created_at + 4h`). -/
def Attendance.is_session_valid (a : Attendance) (now : Int) : Bool :=
  if !a.is_active then false
  else decide (now < a.created_at + 4 * 3600)

/-- Python truthiness of an optional decimal: `not x` is true when the value
is absent (`None`) or numerically zero. -/
def falsyCoord (x : Option ℚ) : Bool :=
  match x with
  | none => true
  | some v => v == 0

/-- The default radius of `Attendance.is_within_radius` (models.py line 125:
`radius_meters=50`). -/
def default_radius_meters : ℚ := 50

/-- `Attendance.is_within_radius` (models.py lines 125-133): if either
lecturer coordinate is falsy (absent or zero) return `True`; otherwise
compare the computed distance against the radius
(`distance <= radius_meters`). `dist` stands for the external
`geodesic(lecturer_coords, student_coords).meters`. -/
def Attendance.is_within_radius (dist : ℚ → ℚ → ℚ → ℚ → ℚ) (a : Attendance)
    (student_lat student_lon radius_meters : ℚ) : Bool :=
  if falsyCoord a.lecturer_latitude || falsyCoord a.lecturer_longitude then true
  else
    decide (dist (a.lecturer_latitude.getD 0) (a.lecturer_longitude.getD 0)
      student_lat student_lon ≤ radius_meters)

/-- The stored form of a session after `Attendance.save` (models.py lines
107-108): a session whose `ended_at` is set is stored with
`is_active = False`. -/
def Attendance.storedOnSave (a : Attendance) : Attendance :=
  if a.ended_at ≠ none then { a with is_active := false } else a

/-- The record-level part of `Attendance.save` (models.py lines 103-109):
first, an active session forces the owning course active; second, a session
with `ended_at` set is stored inactive. Returns (stored session, stored
course). -/
def Attendance.saveStep (a : Attendance) (c : Course) : Attendance × Course :=
  let c' := if a.is_active then { c with is_active := true } else c
  (a.storedOnSave, c')

/-- `AttendanceToken.save` (models.py lines 188-196): default `generated_at`
to now, default `expires_at` to `generated_at + 4h`, and force
`is_active = False` once `expires_at <= now`. (QR-code generation omitted.) -/
def AttendanceToken.save (t : AttendanceToken) (now : Int) : AttendanceToken :=
  let t1 := if t.generated_at = none then { t with generated_at := some now } else t
  let t2 := if t1.expires_at = none
    then { t1 with expires_at := some (t1.generated_at.getD now + 4 * 3600) }
    else t1
  if t2.expires_at.getD now ≤ now then { t2 with is_active := false } else t2

/-- The persistent state: courses, sessions and tokens, each in insertion
order. -/
structure DB where
  courses : List Course
  attendances : List Attendance
  tokens : List AttendanceToken
deriving Repr, DecidableEq

/-- Outcomes of the check-in request handlers, one constructor per distinct
response of `views.py` (`SubmitLocationView.post` and
`CourseViewSet.take_attendance`). -/
inductive CheckinResult where
  | success
  | invalidOrExpiredToken
  | notEnrolled
  | outOfRange
  | studentProfileMissing
deriving Repr, DecidableEq

/-- Outcomes of `AttendanceViewSet.end_attendance`. -/
inductive EndResult where
  | sessionEnded
  | noActiveSession
deriving Repr, DecidableEq

/-- `AttendanceToken.objects.get(token=s, is_active=True)` (views.py lines
88-89 and 254-257): lookup by the token string and the stored active flag
only. -/
def resolveToken (db : DB) (s : String) : Option AttendanceToken :=
  db.tokens.find? (fun t => t.token == s && t.is_active)

/-- The roster of the course with id `cid`: `course.students.all()`. A
dangling foreign key (impossible in the application) yields the empty
roster. -/
def rosterOf (db : DB) (cid : Nat) : List Nat :=
  match db.courses.find? (fun c => c.id == cid) with
  | none => []
  | some c => c.students

/-- One step of selecting the first row under the model ordering
`['-date', '-created_at']` (models.py line 94): keep the row that is
strictly greater in (date, created_at) lexicographic order, preferring the
earlier row on full ties (stable). -/
def pickFirstOrdered (acc : Option Attendance) (a : Attendance) : Option Attendance :=
  match acc with
  | none => some a
  | some b =>
    if a.date > b.date || (a.date == b.date && a.created_at > b.created_at)
    then some a else some b

/-- `queryset.first()` under the default model ordering. -/
def querysetFirst (l : List Attendance) : Option Attendance :=
  l.foldl pickFirstOrdered none

/-- One step of `latest('date')`: keep the row with the strictly greater
date, preferring the earlier row on date ties (the query orders by `date`
alone, so ties are resolved by the store's row order). -/
def pickLatestByDate (acc : Option Attendance) (a : Attendance) : Option Attendance :=
  match acc with
  | none => some a
  | some b => if a.date > b.date then some a else some b

/-- `queryset.latest('date')`, returning `none` where Django raises
`DoesNotExist`. -/
def latestByDate (l : List Attendance) : Option Attendance :=
  l.foldl pickLatestByDate none

/-- `present_students.add(student)`: idempotent membership add. -/
def Attendance.addStudent (a : Attendance) (sid : Nat) : Attendance :=
  if sid ∈ a.present_students then a
  else { a with present_students := a.present_students ++ [sid] }

/-- A fresh primary key for a new session row. -/
def freshAttendanceId (db : DB) : Nat :=
  db.attendances.foldl (fun m a => max m (a.id + 1)) 0

/-- `attendance.save()` at the database level: apply the course side effect
and the `ended_at` override of models.py lines 103-109, then upsert the
session row by primary key. -/
def DB.saveAttendance (db : DB) (a : Attendance) : DB :=
  let courses' := db.courses.map (fun c =>
    if c.id == a.course then (a.saveStep c).2 else c)
  let attendances' :=
    if db.attendances.any (fun b => b.id == a.id)
    then db.attendances.map (fun b => if b.id == a.id then a.storedOnSave else b)
    else db.attendances ++ [a.storedOnSave]
  { db with courses := courses', attendances := attendances' }

/-- The session row created by `get_or_create` with field defaults
(`is_active=True`, no coordinates, no `ended_at`, `created_at = now`). -/
def newSession (db : DB) (cid : Nat) (today now : Int) : Attendance :=
  { id := freshAttendanceId db, course := cid, date := today,
    present_students := [], lecturer_latitude := none,
    lecturer_longitude := none, is_active := true, ended_at := none,
    created_at := now }

/-- `Attendance.objects.get_or_create(course=course, date=today)`
(views.py lines 96-99): reuse the existing row for (course, today) or create
one with field defaults and save it. -/
def getOrCreateAttendance (db : DB) (cid : Nat) (today now : Int) :
    Attendance × DB :=
  match db.attendances.find? (fun a => a.course == cid && a.date == today) with
  | some a => (a, db)
  | none =>
    (newSession db cid today now, db.saveAttendance (newSession db cid today now))

/-- `SubmitLocationView.post` (views.py lines 249-271), the
proximity-checked check-in: resolve the token, look up today's session for
the token's course, test proximity, then test the student profile and the
enrollment, and finally record presence. `userStudent` is
`request.user.student` when the user has a student profile. -/
def submitLocation (dist : ℚ → ℚ → ℚ → ℚ → ℚ) (db : DB)
    (userStudent : Option Nat) (latitude longitude : ℚ)
    (attendance_token : String) (today : Int) : CheckinResult × DB :=
  match resolveToken db attendance_token with
  | none => (.invalidOrExpiredToken, db)
  | some token =>
    match querysetFirst (db.attendances.filter
        (fun a => a.course == token.course && a.date == today)) with
    | some attendance =>
      if attendance.is_within_radius dist latitude longitude
          default_radius_meters then
        match userStudent with
        | some sid =>
          if sid ∈ rosterOf db token.course then
            (.success, db.saveAttendance (attendance.addStudent sid))
          else (.notEnrolled, db)
        | none => (.notEnrolled, db)
      else (.outOfRange, db)
    | none => (.outOfRange, db)

/-- `CourseViewSet.take_attendance` (views.py lines 81-106), the token-only
check-in: resolve the token, resolve the student profile, test enrollment,
get-or-create today's session, and record presence. No proximity check. -/
def takeAttendance (db : DB) (userStudent : Option Nat) (tokenStr : String)
    (today now : Int) : CheckinResult × DB :=
  match resolveToken db tokenStr with
  | none => (.invalidOrExpiredToken, db)
  | some token =>
    match userStudent with
    | none => (.studentProfileMissing, db)
    | some sid =>
      if sid ∈ rosterOf db token.course then
        let (att, db1) := getOrCreateAttendance db token.course today now
        (.success, db1.saveAttendance (att.addStudent sid))
      else (.notEnrolled, db)

/-- `AttendanceViewSet.end_attendance` (views.py lines 153-168): take the
latest-by-date active session of the course, set `is_active = False` and
`ended_at = now`, and save it; report `noActiveSession` when the course has
no active session. -/
def endAttendance (db : DB) (course_id : Nat) (now : Int) : EndResult × DB :=
  match latestByDate (db.attendances.filter
      (fun a => a.course == course_id && a.is_active)) with
  | none => (.noActiveSession, db)
  | some attendance =>
    (.sessionEnded,
      db.saveAttendance { attendance with is_active := false, ended_at := some now })

/-! ### Concrete fixtures

A symmetric concrete stand-in for the external distance routine, used to
instantiate the `dist` parameter in witnesses and counterexamples: a scaled
taxicab metric in degree coordinates (`111320` meters per degree, the
equatorial scale, so it agrees with great-circle distances along the
equator to within a fraction of a percent). -/
def distEq (alat alon plat plon : ℚ) : ℚ :=
  111320 * (|plat - alat| + |plon - alon|)

/-- A session row with the given anchor coordinates and neutral remaining
fields, for exercising `Attendance.is_within_radius`. -/
def anchorSession (alat alon : Option ℚ) : Attendance :=
  { id := 0, course := 0, date := 0, present_students := [],
    lecturer_latitude := alat, lecturer_longitude := alon,
    is_active := true, ended_at := none, created_at := 0 }

/-- A course with id 1 whose roster is exactly student 5. -/
def courseA : Course :=
  { id := 1, is_active := true, lecturer := 1, students := [5] }

/-- An active token "TOKA" for course 1. -/
def tokenA : AttendanceToken :=
  { id := 1, course := 1, token := "TOKA", generated_at := some 0,
    expires_at := some (4 * 3600), is_active := true }

/-! ### Basic lemmas about the proximity check -/

/-- `distEq` is symmetric under swapping its two coordinate pairs. -/
lemma distEq_symm : ∀ x y z w : ℚ, distEq x y z w = distEq z w x y := by
  intro x y z w
  unfold distEq
  rw [abs_sub_comm z x, abs_sub_comm w y]

lemma falsyCoord_some_ne {x : ℚ} (h : x ≠ 0) : falsyCoord (some x) = false := by
  simp [falsyCoord, h]

/-! ### Claim theorems -/

/-- C1, counterexample: a session that is active, has no `ended_at`, and was
created 5 hours ago still satisfies the code's `is_open`, although the third
clause of the claim (created less than 4 hours ago) fails — `is_open` does
not consult `created_at` at all. -/
theorem C1_is_open_counterexample :
    (anchorSession none none).is_open (5 * 3600) = true ∧
    ¬ ((5 * 3600 : Int) < (anchorSession none none).created_at + 4 * 3600) := by
  constructor
  · rfl
  · decide

/-- C1, amended: the code splits the spec's "open" invariant across two
predicates. `is_open` checks only the active flag and `ended_at`; the
conjunction `is_open && is_session_valid` holds exactly when all three
clauses of the claim hold (and in particular is false for any session
created 4 or more hours ago). -/
theorem C1_open_invariant_split (a : Attendance) (now : Int) :
    (a.is_open now = true ↔
      a.is_active = true ∧
        (a.ended_at = none ∨ ∃ e, a.ended_at = some e ∧ now < e))
  ∧ ((a.is_open now && a.is_session_valid now) = true ↔
      a.is_active = true ∧
        (a.ended_at = none ∨ ∃ e, a.ended_at = some e ∧ now < e) ∧
        now < a.created_at + 4 * 3600) := by
  constructor
  · cases hact : a.is_active <;> cases hend : a.ended_at <;>
      simp [Attendance.is_open, hact, hend, and_comm]
  · cases hact : a.is_active <;> cases hend : a.ended_at <;>
      simp [Attendance.is_open, Attendance.is_session_valid, hact, hend,
        and_comm, and_assoc]

/-- C1, witness for the amended statement: a fresh active session with no
`ended_at` satisfies the three-clause conjunction. -/
theorem C1_open_invariant_split_witness :
    ((anchorSession none none).is_open 100 &&
      (anchorSession none none).is_session_valid 100) = true :=
  (C1_open_invariant_split (anchorSession none none) 100).2.mpr
    ⟨rfl, Or.inl rfl, by decide⟩

/-- C8: the persistence hook of a session. Saving with `is_active = true`
forces the owning course active (and otherwise leaves the course's flag
alone); the stored session is inactive whenever `ended_at` is set,
regardless of the flag's prior value; the stored session differs from the
input only in `is_active`; and every course field other than `is_active` is
unchanged. -/
theorem C8_session_save_side_effects (a : Attendance) (c : Course) :
    ((a.saveStep c).2.is_active = (a.is_active || c.is_active))
  ∧ ((a.saveStep c).1.is_active =
      (if a.ended_at = none then a.is_active else false))
  ∧ ((a.saveStep c).1 = { a with is_active := (a.saveStep c).1.is_active })
  ∧ ((a.saveStep c).2.id = c.id)
  ∧ ((a.saveStep c).2.lecturer = c.lecturer)
  ∧ ((a.saveStep c).2.students = c.students) := by
  obtain ⟨i, co, d, ps, la, lo, act, en, cr⟩ := a
  cases act <;> cases en <;> simp [Attendance.saveStep, Attendance.storedOnSave]

/-- C10: if either recorded anchor coordinate equals zero, the proximity
check returns `true` for every submitted coordinate pair and radius: the
missing-anchor test uses numeric truthiness, and `0` is falsy. -/
theorem C10_zero_anchor_fails_open (dist : ℚ → ℚ → ℚ → ℚ → ℚ)
    (a : Attendance) (plat plon r : ℚ)
    (h : a.lecturer_latitude = some 0 ∨ a.lecturer_longitude = some 0) :
    a.is_within_radius dist plat plon r = true := by
  rcases h with h | h <;> simp [Attendance.is_within_radius, falsyCoord, h]

/-- C10, witness: a session anchored at latitude 0 admits a far-away point
at radius 1. -/
theorem C10_zero_anchor_fails_open_witness :
    (anchorSession (some 0) (some 3)).is_within_radius distEq 9 9 1 = true :=
  C10_zero_anchor_fails_open distEq (anchorSession (some 0) (some 3)) 9 9 1
    (Or.inl rfl)

/-- The fixture database for the proximity scenarios of C4: course 1 with
student 5 enrolled, the active token "TOKA", and a session dated 0 whose
recorded anchor is exactly (0, 0). -/
def sessZeroAnchor : Attendance :=
  { id := 1, course := 1, date := 0, present_students := [],
    lecturer_latitude := some 0, lecturer_longitude := some 0,
    is_active := true, ended_at := none, created_at := 0 }

def dbZeroAnchor : DB :=
  { courses := [courseA], attendances := [sessZeroAnchor], tokens := [tokenA] }

/-- C4, counterexample: in the claim's own scenario (anchor (0, 0), radius
50), the enrolled student's submission at (0, 0.001) — about 111 m away —
succeeds instead of failing with `OutOfRange`: a zero anchor coordinate is
falsy, so the distance is never computed. -/
theorem C4_scenario_counterexample :
    (submitLocation distEq dbZeroAnchor (some 5) 0 (1 / 1000) "TOKA" 0).1 =
      CheckinResult.success := by
  simp [submitLocation, resolveToken, dbZeroAnchor, sessZeroAnchor, tokenA,
    courseA, rosterOf, querysetFirst, pickFirstOrdered,
    Attendance.is_within_radius, falsyCoord, List.filter, List.find?]

/-- C4, amended: for a session whose recorded anchor coordinates are both
nonzero, the proximity check returns `true` exactly when the computed
distance is at most `radius_meters`, and the default radius is 50 meters;
but an anchor with a zero coordinate — including the scenario's anchor
(0, 0) — is treated as absent and every submission passes. -/
theorem C4_within_radius_threshold (dist : ℚ → ℚ → ℚ → ℚ → ℚ)
    (a : Attendance) (alat alon plat plon r : ℚ)
    (hlat : a.lecturer_latitude = some alat)
    (hlon : a.lecturer_longitude = some alon)
    (h1 : alat ≠ 0) (h2 : alon ≠ 0) :
    (a.is_within_radius dist plat plon r = true ↔ dist alat alon plat plon ≤ r)
  ∧ default_radius_meters = 50 := by
  refine ⟨?_, rfl⟩
  simp [Attendance.is_within_radius, hlat, hlon, falsyCoord_some_ne h1,
    falsyCoord_some_ne h2]

/-- C4, witness: with anchor (1, 1) the check is a genuine threshold
comparison — the distance 222640 is within radius 500000. -/
theorem C4_within_radius_threshold_witness :
    (anchorSession (some 1) (some 1)).is_within_radius distEq 0 0 500000 = true :=
  (C4_within_radius_threshold distEq (anchorSession (some 1) (some 1))
    1 1 0 0 500000 rfl rfl (by norm_num) (by norm_num)).1.mpr (by
      unfold distEq
      norm_num)

/-- C9, counterexample: `is_within_radius` is not symmetric in its two
coordinate pairs even for a symmetric distance function. With anchor
(10, 10) the point (0, 0) is rejected at radius 50, but with anchor (0, 0)
the point (10, 10) is accepted at radius 50, because the zero anchor is
treated as absent. -/
theorem C9_symmetry_counterexample :
    (anchorSession (some 10) (some 10)).is_within_radius distEq 0 0 50 = false
  ∧ (anchorSession (some 0) (some 0)).is_within_radius distEq 10 10 50 = true := by
  constructor
  · simp [Attendance.is_within_radius, anchorSession, falsyCoord, distEq]
    norm_num
  · simp [Attendance.is_within_radius, anchorSession, falsyCoord]

/-- C9, amended: the check is monotonic in `radius_meters` for every session
and distance function; symmetry in the two coordinate pairs holds only when
the distance function is symmetric and all four coordinates are nonzero (so
that neither anchor is treated as absent). -/
theorem C9_monotone_and_restricted_symmetry (dist : ℚ → ℚ → ℚ → ℚ → ℚ)
    (hsym : ∀ x y z w, dist x y z w = dist z w x y) :
    (∀ (a : Attendance) (plat plon r1 r2 : ℚ), r1 ≤ r2 →
      a.is_within_radius dist plat plon r1 = true →
      a.is_within_radius dist plat plon r2 = true)
  ∧ (∀ alat alon plat plon r : ℚ,
      alat ≠ 0 → alon ≠ 0 → plat ≠ 0 → plon ≠ 0 →
      (anchorSession (some alat) (some alon)).is_within_radius dist plat plon r =
      (anchorSession (some plat) (some plon)).is_within_radius dist alat alon r) := by
  constructor
  · intro a plat plon r1 r2 hr h
    unfold Attendance.is_within_radius at h ⊢
    by_cases hf : (falsyCoord a.lecturer_latitude || falsyCoord a.lecturer_longitude) = true
    · simp [hf]
    · simp only [hf, if_false, Bool.not_eq_true] at h ⊢
      rw [if_neg (by simp [hf]), decide_eq_true_iff] at h
      rw [if_neg (by simp [hf]), decide_eq_true_iff]
      exact le_trans h hr
  · intro alat alon plat plon r h1 h2 h3 h4
    simp [Attendance.is_within_radius, anchorSession, falsyCoord_some_ne h1,
      falsyCoord_some_ne h2, falsyCoord_some_ne h3, falsyCoord_some_ne h4,
      hsym alat alon plat plon]

/-- C9, witness: monotonicity and symmetry instantiated at the symmetric
concrete distance `distEq`, an anchor (1, 1), a point (2, 2), and radii
250000 and 300000. -/
theorem C9_monotone_and_restricted_symmetry_witness :
    ((anchorSession (some 1) (some 1)).is_within_radius distEq 2 2 300000 = true)
  ∧ ((anchorSession (some 1) (some 1)).is_within_radius distEq 2 2 250000 =
      (anchorSession (some 2) (some 2)).is_within_radius distEq 1 1 250000) := by
  constructor
  · exact (C9_monotone_and_restricted_symmetry distEq distEq_symm).1
      (anchorSession (some 1) (some 1)) 2 2 250000 300000 (by norm_num)
      (by simp [Attendance.is_within_radius, anchorSession, falsyCoord, distEq]
          norm_num)
  · exact (C9_monotone_and_restricted_symmetry distEq distEq_symm).2
      1 1 2 2 250000 (by norm_num) (by norm_num) (by norm_num) (by norm_num)

/-- A session for course 1 dated 0 whose anchor is (1, 1) — about 157 km
from the origin, so a submission at (0, 0) is far outside any 50 m
radius. -/
def sessFarAnchor : Attendance :=
  { id := 1, course := 1, date := 0, present_students := [],
    lecturer_latitude := some 1, lecturer_longitude := some 1,
    is_active := true, ended_at := none, created_at := 0 }

/-- Fixture for C2/C3: course 1 (roster = [5]), the active token "TOKA",
and the single session `sessFarAnchor` dated 0. -/
def dbFarAnchor : DB :=
  { courses := [courseA], attendances := [sessFarAnchor], tokens := [tokenA] }

/-- C2, counterexample: student 7 is not enrolled in course 1 and submits
the out-of-range coordinates (0, 0); the response is `OutOfRange`, not
`NotEnrolled` — the proximity check runs before the enrollment check. -/
theorem C2_unenrolled_gets_out_of_range :
    (submitLocation distEq dbFarAnchor (some 7) 0 0 "TOKA" 0).1 =
      CheckinResult.outOfRange := by
  norm_num [submitLocation, resolveToken, dbFarAnchor, sessFarAnchor, tokenA,
    courseA, rosterOf, querysetFirst, pickFirstOrdered,
    Attendance.is_within_radius, falsyCoord, default_radius_meters, distEq,
    List.filter, List.find?, List.foldl]

/-- C2, amended: in `SubmitLocationView.post` the session lookup and the
proximity check precede the enrollment check. `NotEnrolled` can only be
returned when a session for (course, today) was found and the proximity
check passed; whenever the session is missing or the proximity check fails,
the result is `OutOfRange`, regardless of the requesting student's
enrollment. -/
theorem C2_proximity_precedes_enrollment (dist : ℚ → ℚ → ℚ → ℚ → ℚ)
    (db : DB) (us : Option Nat) (lat lon : ℚ) (s : String) (today : Int) :
    ((submitLocation dist db us lat lon s today).1 = CheckinResult.notEnrolled →
      ∃ token att, resolveToken db s = some token ∧
        querysetFirst (db.attendances.filter
          (fun a => a.course == token.course && a.date == today)) = some att ∧
        att.is_within_radius dist lat lon default_radius_meters = true)
  ∧ (∀ token, resolveToken db s = some token →
      (querysetFirst (db.attendances.filter
          (fun a => a.course == token.course && a.date == today)) = none ∨
        ∃ att, querysetFirst (db.attendances.filter
          (fun a => a.course == token.course && a.date == today)) = some att ∧
          att.is_within_radius dist lat lon default_radius_meters = false) →
      (submitLocation dist db us lat lon s today).1 = CheckinResult.outOfRange) := by
  constructor
  · intro h
    cases htok : resolveToken db s with
    | none => simp [submitLocation, htok] at h
    | some token =>
      cases hq : querysetFirst (db.attendances.filter
          (fun a => a.course == token.course && a.date == today)) with
      | none => simp [submitLocation, htok, hq] at h
      | some att =>
        cases hw : att.is_within_radius dist lat lon default_radius_meters with
        | false => simp [submitLocation, htok, hq, hw] at h
        | true => exact ⟨token, att, rfl, hq, hw⟩
  · intro token htok hmiss
    rcases hmiss with hq | ⟨att, hq, hw⟩
    · simp [submitLocation, htok, hq]
    · simp [submitLocation, htok, hq, hw]

/-- C2, witness for the amended statement: in the fixture state, the failed
proximity check yields `OutOfRange` for the enrolled student 5 as well. -/
theorem C2_proximity_precedes_enrollment_witness :
    (submitLocation distEq dbFarAnchor (some 5) 0 0 "TOKA" 0).1 =
      CheckinResult.outOfRange :=
  (C2_proximity_precedes_enrollment distEq dbFarAnchor (some 5) 0 0 "TOKA" 0).2
    tokenA (by decide)
    (Or.inr ⟨sessFarAnchor, by decide, by
      simp [Attendance.is_within_radius, sessFarAnchor, falsyCoord, distEq,
        default_radius_meters]
      norm_num⟩)

/-- C3, counterexample: with a still-open session dated 0 and no session
dated 1, the enrolled student's check-in on day 1 fails with the very same
`OutOfRange` response that a failed proximity check produces on day 0 —
there is no distinct `NoOpenSession` error. -/
theorem C3_no_distinct_no_open_session_error :
    (submitLocation distEq dbFarAnchor (some 5) 0 0 "TOKA" 1).1 =
      CheckinResult.outOfRange
  ∧ (submitLocation distEq dbFarAnchor (some 5) 0 0 "TOKA" 0).1 =
      CheckinResult.outOfRange := by
  constructor
  · decide
  · norm_num [submitLocation, resolveToken, dbFarAnchor, sessFarAnchor,
      tokenA, courseA, rosterOf, querysetFirst, pickFirstOrdered,
      Attendance.is_within_radius, falsyCoord, default_radius_meters, distEq,
      List.filter, List.find?, List.foldl]

/-- C3, amended: when the token resolves but no session row has the token's
course and today's calendar date, `SubmitLocationView.post` fails with the
generic `OutOfRange` response (shared with proximity failure, not a
distinct `NoOpenSession` error) and leaves the state unchanged; the lookup
is strictly by today's date, so the hypothesis permits a still-open session
dated yesterday. -/
theorem C3_missing_today_session_out_of_range (dist : ℚ → ℚ → ℚ → ℚ → ℚ)
    (db : DB) (us : Option Nat) (lat lon : ℚ) (s : String) (today : Int)
    (token : AttendanceToken)
    (htok : resolveToken db s = some token)
    (hnone : ∀ a ∈ db.attendances, a.course = token.course → a.date ≠ today) :
    submitLocation dist db us lat lon s today = (CheckinResult.outOfRange, db) := by
  have hfilter : db.attendances.filter
      (fun a => a.course == token.course && a.date == today) = [] := by
    rw [List.filter_eq_nil_iff]
    intro a ha
    simp only [Bool.and_eq_true, beq_iff_eq, not_and]
    exact fun hc => hnone a ha hc
  simp [submitLocation, htok, hfilter, querysetFirst]

/-- C3, witness: the amended statement applied to the fixture state on day
1, where the only session (course 1, still open) is dated 0. -/
theorem C3_missing_today_session_out_of_range_witness :
    submitLocation distEq dbFarAnchor (some 5) 0 0 "TOKA" 1 =
      (CheckinResult.outOfRange, dbFarAnchor) :=
  C3_missing_today_session_out_of_range distEq dbFarAnchor (some 5) 0 0 "TOKA" 1
    tokenA (by decide) (by decide)

/-- C5: token resolution filters on the token string and the stored
`is_active` flag only — `resolveToken` does not even take the current time
as an input — so a stored token whose `is_active` flag is still true
resolves successfully although its `expires_at` lies in the past; expiry is
re-evaluated only by `AttendanceToken.save`, which stores the token
inactive once `expires_at <= now`. -/
theorem C5_resolve_ignores_expiry (db : DB) (s : String)
    (t : AttendanceToken) (now : Int)
    (hmem : t ∈ db.tokens) (hs : t.token = s) (hact : t.is_active = true)
    (hexp : ∃ e, t.expires_at = some e ∧ e < now) :
    (resolveToken db s).isSome = true ∧ (t.save now).is_active = false := by
  obtain ⟨e, he, helt⟩ := hexp
  constructor
  · rw [resolveToken, List.find?_isSome]
    exact ⟨t, hmem, by simp [hs, hact]⟩
  · unfold AttendanceToken.save
    cases hgen : t.generated_at with
    | none => simp [hgen, he, le_of_lt helt]
    | some g => simp [hgen, he, le_of_lt helt]

/-- An expired token whose stored flag is still true: `expires_at = 0` lies
in the past of `now = 10`. -/
def tokenStale : AttendanceToken :=
  { id := 2, course := 1, token := "TOKS", generated_at := some 0,
    expires_at := some 0, is_active := true }

def dbStale : DB :=
  { courses := [courseA], attendances := [], tokens := [tokenStale] }

/-- C5, witness: the stale token of the fixture resolves at time 10 even
though it expired at time 0, and re-saving it at time 10 deactivates it. -/
theorem C5_resolve_ignores_expiry_witness :
    (resolveToken dbStale "TOKS").isSome = true ∧
    (tokenStale.save 10).is_active = false :=
  C5_resolve_ignores_expiry dbStale "TOKS" tokenStale 10 (by decide) rfl rfl
    ⟨0, rfl, by decide⟩

/-! ### Lemmas about primary keys and saving -/

lemma le_foldl_max (l : List Attendance) (n : Nat) :
    n ≤ l.foldl (fun m a => max m (a.id + 1)) n := by
  induction l generalizing n with
  | nil => exact le_refl n
  | cons b t ih =>
    exact le_trans (le_max_left n (b.id + 1)) (ih (max n (b.id + 1)))

lemma mem_lt_foldl_max (l : List Attendance) (n : Nat) :
    ∀ a ∈ l, a.id < l.foldl (fun m x => max m (x.id + 1)) n := by
  induction l generalizing n with
  | nil => intro a ha; cases ha
  | cons b t ih =>
    intro a ha
    rcases List.mem_cons.mp ha with rfl | ha
    · exact lt_of_lt_of_le
        (lt_of_lt_of_le (Nat.lt_succ_self _) (le_max_right n (a.id + 1)))
        (le_foldl_max t _)
    · exact ih _ a ha

/-- Every stored session's primary key is below the fresh key. -/
lemma freshAttendanceId_gt (db : DB) :
    ∀ a ∈ db.attendances, a.id < freshAttendanceId db :=
  mem_lt_foldl_max db.attendances 0

/-- Saving a session with a fresh key and no `ended_at` appends it. -/
lemma saveAttendance_attendances_new (db : DB) (a : Attendance)
    (hid : ∀ b ∈ db.attendances, b.id ≠ a.id) (hend : a.ended_at = none) :
    (db.saveAttendance a).attendances = db.attendances ++ [a] := by
  have hany : db.attendances.any (fun b => b.id == a.id) = false := by
    rw [List.any_eq_false]
    intro b hb
    simp [hid b hb]
  simp [DB.saveAttendance, hany, Attendance.storedOnSave, hend]

/-- Saving a session whose key is already present stores its
`storedOnSave` form in the list. -/
lemma saveAttendance_mem_stored (db : DB) (a' : Attendance) (b : Attendance)
    (hb : b ∈ db.attendances) (hbid : b.id = a'.id) :
    a'.storedOnSave ∈ (db.saveAttendance a').attendances := by
  have hany : db.attendances.any (fun x => x.id == a'.id) = true :=
    List.any_eq_true.mpr ⟨b, hb, by simp [hbid]⟩
  simp only [DB.saveAttendance, hany, if_true]
  exact List.mem_map.mpr ⟨b, hb, by simp [hbid]⟩

lemma addStudent_id (a : Attendance) (sid : Nat) :
    (a.addStudent sid).id = a.id := by
  unfold Attendance.addStudent; split <;> rfl

lemma addStudent_course (a : Attendance) (sid : Nat) :
    (a.addStudent sid).course = a.course := by
  unfold Attendance.addStudent; split <;> rfl

lemma addStudent_date (a : Attendance) (sid : Nat) :
    (a.addStudent sid).date = a.date := by
  unfold Attendance.addStudent; split <;> rfl

lemma addStudent_ended_at (a : Attendance) (sid : Nat) :
    (a.addStudent sid).ended_at = a.ended_at := by
  unfold Attendance.addStudent; split <;> rfl

lemma addStudent_mem (a : Attendance) (sid : Nat) :
    sid ∈ (a.addStudent sid).present_students := by
  unfold Attendance.addStudent
  split
  · assumption
  · simp

/-- Fixture for C6: course 1 (roster = [5]), the active token "TOKA", and
no attendance sessions at all. -/
def dbNoSession : DB :=
  { courses := [courseA], attendances := [], tokens := [tokenA] }

/-- C6, counterexample: with no session for (course 1, day 3), the enrolled
student's token-only check-in succeeds and a brand-new session row is
created with the student present — the operation does not fail with a
`NoOpenSession` error, and it records presence in a session that did not
previously exist. -/
theorem C6_creates_session_counterexample :
    (takeAttendance dbNoSession (some 5) "TOKA" 3 10).1 = CheckinResult.success
  ∧ (takeAttendance dbNoSession (some 5) "TOKA" 3 10).2.attendances.map
      (fun a => (a.course, a.date, a.present_students)) = [(1, 3, [5])] := by
  constructor <;> decide

/-- C6, amended: the token-only path enforces steps 1-2 (it fails with
`InvalidOrExpiredToken` when no active token matches, and with
`NotEnrolled` when the student is off the roster) and skips the proximity
check; but instead of failing with `NoOpenSession` when no session exists
for (course, today), it creates one via get-or-create and records presence
in it. -/
theorem C6_take_attendance_behaviour (db : DB) (sid : Nat) (s : String)
    (today now : Int) :
    (resolveToken db s = none →
      takeAttendance db (some sid) s today now =
        (CheckinResult.invalidOrExpiredToken, db))
  ∧ (∀ token, resolveToken db s = some token →
      sid ∉ rosterOf db token.course →
      takeAttendance db (some sid) s today now = (CheckinResult.notEnrolled, db))
  ∧ (∀ token, resolveToken db s = some token →
      sid ∈ rosterOf db token.course →
      (∀ a ∈ db.attendances, ¬(a.course = token.course ∧ a.date = today)) →
      (takeAttendance db (some sid) s today now).1 = CheckinResult.success ∧
      ∃ a ∈ (takeAttendance db (some sid) s today now).2.attendances,
        a.course = token.course ∧ a.date = today ∧ sid ∈ a.present_students) := by
  refine ⟨?_, ?_, ?_⟩
  · intro htok
    simp [takeAttendance, htok]
  · intro token htok henr
    simp [takeAttendance, htok, henr]
  · intro token htok henr hnone
    have hfind : db.attendances.find?
        (fun a => a.course == token.course && a.date == today) = none := by
      rw [List.find?_eq_none]
      intro a ha
      simp only [Bool.and_eq_true, beq_iff_eq, not_and]
      exact fun hc hd => hnone a ha ⟨hc, hd⟩
    have heq : takeAttendance db (some sid) s today now =
        (CheckinResult.success,
          (db.saveAttendance (newSession db token.course today now)).saveAttendance
            ((newSession db token.course today now).addStudent sid)) := by
      simp [takeAttendance, htok, henr, getOrCreateAttendance, hfind]
    refine ⟨by rw [heq], ?_⟩
    rw [heq]
    have hdb1 : (db.saveAttendance (newSession db token.course today now)).attendances
        = db.attendances ++ [newSession db token.course today now] :=
      saveAttendance_attendances_new db _
        (fun b hb => Nat.ne_of_lt (freshAttendanceId_gt db b hb)) rfl
    have hmem1 : newSession db token.course today now ∈
        (db.saveAttendance (newSession db token.course today now)).attendances := by
      rw [hdb1]
      exact List.mem_append_right _ (List.mem_singleton.mpr rfl)
    have hmem2 : ((newSession db token.course today now).addStudent sid).storedOnSave
        ∈ ((db.saveAttendance (newSession db token.course today now)).saveAttendance
            ((newSession db token.course today now).addStudent sid)).attendances :=
      saveAttendance_mem_stored _ _ _ hmem1 (addStudent_id _ _).symm
    have hstored : ((newSession db token.course today now).addStudent sid).storedOnSave
        = (newSession db token.course today now).addStudent sid := by
      unfold Attendance.storedOnSave
      rw [if_neg]
      simp [addStudent_ended_at, newSession]
    refine ⟨(newSession db token.course today now).addStudent sid,
      hstored ▸ hmem2, ?_, ?_, addStudent_mem _ _⟩
    · rw [addStudent_course]; rfl
    · rw [addStudent_date]; rfl

/-- C6, witness for the amended statement: the get-or-create behaviour in
the fixture state with no sessions. -/
theorem C6_take_attendance_behaviour_witness :
    (takeAttendance dbNoSession (some 5) "TOKA" 3 10).1 = CheckinResult.success
  ∧ ∃ a ∈ (takeAttendance dbNoSession (some 5) "TOKA" 3 10).2.attendances,
      a.course = 1 ∧ a.date = 3 ∧ 5 ∈ a.present_students :=
  (C6_take_attendance_behaviour dbNoSession 5 "TOKA" 3 10).2.2 tokenA
    (by decide) (by decide) (by decide)

/-! ### Lemmas about `latest('date')` -/

lemma pickLatestByDate_some (b c : Attendance) :
    pickLatestByDate (some b) c = some (if c.date > b.date then c else b) := by
  unfold pickLatestByDate
  by_cases h : c.date > b.date <;> simp [h]

lemma foldl_pickLatestByDate_spec (l : List Attendance) (b : Attendance) :
    ∃ r, l.foldl pickLatestByDate (some b) = some r ∧ (r = b ∨ r ∈ l) ∧
      b.date ≤ r.date ∧ ∀ c ∈ l, c.date ≤ r.date := by
  induction l generalizing b with
  | nil => exact ⟨b, rfl, Or.inl rfl, le_refl _, by intro c hc; cases hc⟩
  | cons c t ih =>
    obtain ⟨r, hr, hmem, hle, hall⟩ := ih (if c.date > b.date then c else b)
    refine ⟨r, ?_, ?_, ?_, ?_⟩
    · rw [List.foldl_cons, pickLatestByDate_some, hr]
    · rcases hmem with rfl | hm
      · by_cases h : c.date > b.date
        · rw [if_pos h]; exact Or.inr (List.mem_cons_self c t)
        · rw [if_neg h]; exact Or.inl rfl
      · exact Or.inr (List.mem_cons_of_mem c hm)
    · refine le_trans ?_ hle
      by_cases h : c.date > b.date
      · rw [if_pos h]; exact le_of_lt h
      · rw [if_neg h]
    · intro x hx
      rcases List.mem_cons.mp hx with rfl | hm
      · refine le_trans ?_ hle
        by_cases h : x.date > b.date
        · rw [if_pos h]
        · rw [if_neg h]; exact le_of_not_lt h
      · exact hall x hm

lemma latestByDate_eq_none (l : List Attendance) :
    latestByDate l = none ↔ l = [] := by
  cases l with
  | nil => simp [latestByDate]
  | cons b t =>
    obtain ⟨r, hr, -, -, -⟩ := foldl_pickLatestByDate_spec t b
    simp [latestByDate, List.foldl_cons, pickLatestByDate, hr]

lemma latestByDate_spec (l : List Attendance) (r : Attendance)
    (h : latestByDate l = some r) : r ∈ l ∧ ∀ c ∈ l, c.date ≤ r.date := by
  cases l with
  | nil => cases h
  | cons b t =>
    obtain ⟨r', hr', hmem, hle, hall⟩ := foldl_pickLatestByDate_spec t b
    have hb : latestByDate (b :: t) = some r' := by
      simp [latestByDate, List.foldl_cons, pickLatestByDate, hr']
    rw [hb] at h
    injection h with h
    subst h
    constructor
    · rcases hmem with rfl | hm
      · exact List.mem_cons_self _ _
      · exact List.mem_cons_of_mem _ hm
    · intro c hc
      rcases List.mem_cons.mp hc with rfl | hm
      · exact hle
      · exact hall c hm

/-- Two active same-date sessions of course 1: session 1 was created at
time 100, session 2 at time 200. -/
def sessEarlier : Attendance :=
  { id := 1, course := 1, date := 10, present_students := [],
    lecturer_latitude := none, lecturer_longitude := none,
    is_active := true, ended_at := none, created_at := 100 }

def sessNewer : Attendance :=
  { id := 2, course := 1, date := 10, present_students := [],
    lecturer_latitude := none, lecturer_longitude := none,
    is_active := true, ended_at := none, created_at := 200 }

def dbTie : DB :=
  { courses := [courseA], attendances := [sessEarlier, sessNewer], tokens := [] }

/-- C7, counterexample: with two still-active sessions of the same date,
`end_attendance` ends session 1 (created at 100) and leaves session 2
(created at 200) active — the lookup orders by date alone, so the tie is
not broken by the newest creation timestamp as the claim states. -/
theorem C7_tie_break_counterexample :
    (endAttendance dbTie 1 999).2.attendances.map
      (fun a => (a.id, a.created_at, a.is_active, a.ended_at)) =
      [(1, 100, false, some 999), (2, 200, true, none)] := by
  decide

/-- C7, amended: `end_attendance` fails with `NoActiveSession` exactly when
the course has no active session; otherwise it selects an active session of
the course with maximal date (ties among equal dates are not broken by
creation timestamp — the embedding keeps the earliest stored row), stores
it with `is_active = false` and `ended_at = now`, and saves. -/
theorem C7_end_attendance_behaviour (db : DB) (cid : Nat) (now : Int) :
    (endAttendance db cid now = (EndResult.noActiveSession, db) ↔
      ∀ a ∈ db.attendances, a.course = cid → a.is_active = false)
  ∧ (∀ sel, latestByDate (db.attendances.filter
        (fun a => a.course == cid && a.is_active)) = some sel →
      sel ∈ db.attendances ∧ sel.course = cid ∧ sel.is_active = true ∧
      (∀ b ∈ db.attendances, b.course = cid → b.is_active = true →
        b.date ≤ sel.date) ∧
      endAttendance db cid now = (EndResult.sessionEnded,
        db.saveAttendance { sel with is_active := false, ended_at := some now }) ∧
      ∃ a ∈ (endAttendance db cid now).2.attendances,
        a.id = sel.id ∧ a.is_active = false ∧ a.ended_at = some now) := by
  have hchar : (db.attendances.filter (fun a => a.course == cid && a.is_active)
      = []) ↔ (∀ a ∈ db.attendances, a.course = cid → a.is_active = false) := by
    rw [List.filter_eq_nil_iff]
    constructor
    · intro h a ha hc
      have := h a ha
      simp only [Bool.and_eq_true, beq_iff_eq, not_and, Bool.not_eq_true] at this
      exact this hc
    · intro h a ha
      simp only [Bool.and_eq_true, beq_iff_eq, not_and, Bool.not_eq_true]
      exact h a ha
  constructor
  · constructor
    · intro h
      cases hl : latestByDate (db.attendances.filter
          (fun a => a.course == cid && a.is_active)) with
      | none => exact hchar.mp ((latestByDate_eq_none _).mp hl)
      | some sel => simp [endAttendance, hl] at h
    · intro h
      have hl : latestByDate (db.attendances.filter
          (fun a => a.course == cid && a.is_active)) = none :=
        (latestByDate_eq_none _).mpr (hchar.mpr h)
      unfold endAttendance
      rw [hl]
  · intro sel hsel
    obtain ⟨hmemf, hmax⟩ := latestByDate_spec _ _ hsel
    obtain ⟨hmem, hpred⟩ := List.mem_filter.mp hmemf
    simp only [Bool.and_eq_true, beq_iff_eq] at hpred
    have heq : endAttendance db cid now = (EndResult.sessionEnded,
        db.saveAttendance { sel with is_active := false, ended_at := some now }) := by
      unfold endAttendance
      rw [hsel]
    refine ⟨hmem, hpred.1, hpred.2, ?_, heq, ?_⟩
    · intro b hb hbc hba
      exact hmax b (List.mem_filter.mpr ⟨hb, by simp [hbc, hba]⟩)
    · rw [heq]
      refine ⟨Attendance.storedOnSave
        { sel with is_active := false, ended_at := some now },
        saveAttendance_mem_stored db _ sel hmem rfl, ?_, ?_, ?_⟩ <;>
        simp [Attendance.storedOnSave]

/-- C7, witness: applying the characterization to a state with no sessions
yields `NoActiveSession`. -/
theorem C7_end_attendance_behaviour_witness :
    endAttendance dbNoSession 1 5 = (EndResult.noActiveSession, dbNoSession) :=
  (C7_end_attendance_behaviour dbNoSession 1 5).1.mpr (by decide)

end AttendanceApp
